import Mathlib

/-!
Verification of the NeXTRust runtime core against its specification.

The development shallowly embeds the three core components:

* `nextstep-atomics` (SoftwareAtomicUnit): spinlock-striped software atomic
  operations over a byte-addressable big-endian (M68k) memory, modelled as a
  state `AtomState` holding the memory (`Nat → Nat`, one byte per address)
  and the 64-entry spinlock table (`Nat → Bool`).  Each exported intrinsic
  (`__atomic_load_*`, `__atomic_store_*`, `__atomic_exchange_*`,
  `__sync_val_compare_and_swap_*`, `__sync_bool_compare_and_swap_*`,
  `__sync_fetch_and_add_*`) is translated function-by-function from
  `src/crates/nextstep-atomics/src/lib.rs`.  The busy-wait in
  `acquire_spinlock` is modelled by its effect on the flag; sequential
  executions started from a clear table never spin.

* `nextstep-alloc` (PageAllocator / FaultReporter): `round_up_to_page`,
  `MachAllocator.alloc`, `MachAllocator.alloc_zeroed` and `alloc_error`
  from `src/crates/nextstep-alloc/src/lib.rs`, with the kernel's
  `vm_allocate` behaviour abstracted as a `VmKernel` parameter and the
  observable process effects (stderr writes, exit) tracked in `Proc`.
  `usize` arithmetic is 32-bit (the m68k target), so additions wrap
  modulo `2 ^ 32`.

* `nextstep-sys` (KernelGateway): `sys_vm_allocate`, `sys_write` and
  `sys_exit` from `src/crates/nextstep-sys/src/lib.rs`, parameterized by
  the raw kernel return value.
-/

namespace NXR

/-! ### Spinlock table (`nextstep-atomics`) -/

/-- Number of spinlocks (`SPINLOCK_COUNT`, must be a power of 2). -/
def SPINLOCK_COUNT : Nat := 64

/-- `SPINLOCK_MASK = SPINLOCK_COUNT - 1`. -/
def SPINLOCK_MASK : Nat := SPINLOCK_COUNT - 1

/-- Hash function mapping an address to a spinlock index
(`addr_to_lock_idx`): `(addr >> 4) & SPINLOCK_MASK`. -/
def addr_to_lock_idx (addr : Nat) : Nat :=
  (addr >>> 4) &&& SPINLOCK_MASK

/-- Effect of `acquire_spinlock` on the lock table: after the busy wait the
one flag at `idx` is set.  (The model executes operations sequentially, so
the wait loop terminates exactly when the flag is clear.) -/
def acquire_spinlock (idx : Nat) (locks : Nat → Bool) : Nat → Bool :=
  fun j => if j = idx then true else locks j

/-- Effect of `release_spinlock` on the lock table: the flag at `idx` is
cleared. -/
def release_spinlock (idx : Nat) (locks : Nat → Bool) : Nat → Bool :=
  fun j => if j = idx then false else locks j

/-! ### Byte-addressable memory, big-endian (M68k) -/

/-- Read one byte (`*src` for `*const u8`). -/
def load_1 (m : Nat → Nat) (a : Nat) : Nat := m a

/-- Read a 2-byte big-endian word (`*src` for `*const u16`). -/
def load_2 (m : Nat → Nat) (a : Nat) : Nat :=
  m a * 256 + m (a + 1)

/-- Read a 4-byte big-endian word (`*src` for `*const u32`). -/
def load_4 (m : Nat → Nat) (a : Nat) : Nat :=
  m a * 16777216 + m (a + 1) * 65536 + m (a + 2) * 256 + m (a + 3)

/-- Write one byte (`*dst = val` for `*mut u8`). -/
def store_1 (m : Nat → Nat) (a v : Nat) : Nat → Nat :=
  fun i => if i = a then v % 256 else m i

/-- Write a 2-byte big-endian word (`*dst = val` for `*mut u16`). -/
def store_2 (m : Nat → Nat) (a v : Nat) : Nat → Nat :=
  fun i =>
    if i = a then v / 256 % 256
    else if i = a + 1 then v % 256
    else m i

/-- Write a 4-byte big-endian word (`*dst = val` for `*mut u32`). -/
def store_4 (m : Nat → Nat) (a v : Nat) : Nat → Nat :=
  fun i =>
    if i = a then v / 16777216 % 256
    else if i = a + 1 then v / 65536 % 256
    else if i = a + 2 then v / 256 % 256
    else if i = a + 3 then v % 256
    else m i

/-- State of the SoftwareAtomicUnit: the target memory plus the global
spinlock table `SPINLOCKS` (flag `locked` of each `PaddedSpinlock`). -/
structure AtomState where
  mem : Nat → Nat
  locks : Nat → Bool

/-- All-zero memory, all spinlocks clear: the process-start state
(`SPINLOCKS` is initialized with `locked: 0`). -/
def initState : AtomState := ⟨fun _ => 0, fun _ => false⟩

/-! ### Atomic operations, translated one-for-one from the source.
Each operation hashes the address, acquires the selected stripe, performs
the access, releases the stripe, and returns its result together with the
new state.  The `_ordering` parameter is accepted and ignored, as in the
source. -/

def __atomic_load_1 (s : AtomState) (src : Nat) (_ordering : Int) :
    Nat × AtomState :=
  let idx := addr_to_lock_idx src
  let l1 := acquire_spinlock idx s.locks
  let val := load_1 s.mem src
  let l2 := release_spinlock idx l1
  (val, ⟨s.mem, l2⟩)

def __atomic_load_2 (s : AtomState) (src : Nat) (_ordering : Int) :
    Nat × AtomState :=
  let idx := addr_to_lock_idx src
  let l1 := acquire_spinlock idx s.locks
  let val := load_2 s.mem src
  let l2 := release_spinlock idx l1
  (val, ⟨s.mem, l2⟩)

def __atomic_load_4 (s : AtomState) (src : Nat) (_ordering : Int) :
    Nat × AtomState :=
  let idx := addr_to_lock_idx src
  let l1 := acquire_spinlock idx s.locks
  let val := load_4 s.mem src
  let l2 := release_spinlock idx l1
  (val, ⟨s.mem, l2⟩)

def __atomic_store_1 (s : AtomState) (dst val : Nat) (_ordering : Int) :
    AtomState :=
  let idx := addr_to_lock_idx dst
  let l1 := acquire_spinlock idx s.locks
  let m := store_1 s.mem dst val
  let l2 := release_spinlock idx l1
  ⟨m, l2⟩

def __atomic_store_2 (s : AtomState) (dst val : Nat) (_ordering : Int) :
    AtomState :=
  let idx := addr_to_lock_idx dst
  let l1 := acquire_spinlock idx s.locks
  let m := store_2 s.mem dst val
  let l2 := release_spinlock idx l1
  ⟨m, l2⟩

def __atomic_store_4 (s : AtomState) (dst val : Nat) (_ordering : Int) :
    AtomState :=
  let idx := addr_to_lock_idx dst
  let l1 := acquire_spinlock idx s.locks
  let m := store_4 s.mem dst val
  let l2 := release_spinlock idx l1
  ⟨m, l2⟩

def __sync_val_compare_and_swap_1 (s : AtomState) (ptr oldval newval : Nat) :
    Nat × AtomState :=
  let idx := addr_to_lock_idx ptr
  let l1 := acquire_spinlock idx s.locks
  let current := load_1 s.mem ptr
  let m := if current = oldval then store_1 s.mem ptr newval else s.mem
  let l2 := release_spinlock idx l1
  (current, ⟨m, l2⟩)

def __sync_val_compare_and_swap_2 (s : AtomState) (ptr oldval newval : Nat) :
    Nat × AtomState :=
  let idx := addr_to_lock_idx ptr
  let l1 := acquire_spinlock idx s.locks
  let current := load_2 s.mem ptr
  let m := if current = oldval then store_2 s.mem ptr newval else s.mem
  let l2 := release_spinlock idx l1
  (current, ⟨m, l2⟩)

def __sync_val_compare_and_swap_4 (s : AtomState) (ptr oldval newval : Nat) :
    Nat × AtomState :=
  let idx := addr_to_lock_idx ptr
  let l1 := acquire_spinlock idx s.locks
  let current := load_4 s.mem ptr
  let m := if current = oldval then store_4 s.mem ptr newval else s.mem
  let l2 := release_spinlock idx l1
  (current, ⟨m, l2⟩)

def __atomic_exchange_1 (s : AtomState) (ptr val : Nat) (_ordering : Int) :
    Nat × AtomState :=
  let idx := addr_to_lock_idx ptr
  let l1 := acquire_spinlock idx s.locks
  let old := load_1 s.mem ptr
  let m := store_1 s.mem ptr val
  let l2 := release_spinlock idx l1
  (old, ⟨m, l2⟩)

def __atomic_exchange_2 (s : AtomState) (ptr val : Nat) (_ordering : Int) :
    Nat × AtomState :=
  let idx := addr_to_lock_idx ptr
  let l1 := acquire_spinlock idx s.locks
  let old := load_2 s.mem ptr
  let m := store_2 s.mem ptr val
  let l2 := release_spinlock idx l1
  (old, ⟨m, l2⟩)

def __atomic_exchange_4 (s : AtomState) (ptr val : Nat) (_ordering : Int) :
    Nat × AtomState :=
  let idx := addr_to_lock_idx ptr
  let l1 := acquire_spinlock idx s.locks
  let old := load_4 s.mem ptr
  let m := store_4 s.mem ptr val
  let l2 := release_spinlock idx l1
  (old, ⟨m, l2⟩)

def __sync_fetch_and_add_1 (s : AtomState) (ptr val : Nat) :
    Nat × AtomState :=
  let idx := addr_to_lock_idx ptr
  let l1 := acquire_spinlock idx s.locks
  let old := load_1 s.mem ptr
  let m := store_1 s.mem ptr ((old + val) % 256)
  let l2 := release_spinlock idx l1
  (old, ⟨m, l2⟩)

def __sync_fetch_and_add_2 (s : AtomState) (ptr val : Nat) :
    Nat × AtomState :=
  let idx := addr_to_lock_idx ptr
  let l1 := acquire_spinlock idx s.locks
  let old := load_2 s.mem ptr
  let m := store_2 s.mem ptr ((old + val) % 65536)
  let l2 := release_spinlock idx l1
  (old, ⟨m, l2⟩)

def __sync_fetch_and_add_4 (s : AtomState) (ptr val : Nat) :
    Nat × AtomState :=
  let idx := addr_to_lock_idx ptr
  let l1 := acquire_spinlock idx s.locks
  let old := load_4 s.mem ptr
  let m := store_4 s.mem ptr ((old + val) % 4294967296)
  let l2 := release_spinlock idx l1
  (old, ⟨m, l2⟩)

def __sync_bool_compare_and_swap_1 (s : AtomState) (ptr oldval newval : Nat) :
    Bool × AtomState :=
  let r := __sync_val_compare_and_swap_1 s ptr oldval newval
  (r.1 == oldval, r.2)

def __sync_bool_compare_and_swap_2 (s : AtomState) (ptr oldval newval : Nat) :
    Bool × AtomState :=
  let r := __sync_val_compare_and_swap_2 s ptr oldval newval
  (r.1 == oldval, r.2)

def __sync_bool_compare_and_swap_4 (s : AtomState) (ptr oldval newval : Nat) :
    Bool × AtomState :=
  let r := __sync_val_compare_and_swap_4 s ptr oldval newval
  (r.1 == oldval, r.2)

/-! ### Interference machinery for the store/load round-trip claims.
A `StoreReq` is one atomic store call (width and operands); a list of them
is the traffic performed between a store to `a` and the subsequent load. -/

/-- One atomic store call at width 1, 2 or 4: constructor arguments are the
destination address and the value. -/
inductive StoreReq where
  | w1 : Nat → Nat → StoreReq
  | w2 : Nat → Nat → StoreReq
  | w4 : Nat → Nat → StoreReq

/-- Base address of a store request. -/
def StoreReq.base : StoreReq → Nat
  | .w1 b _ => b
  | .w2 b _ => b
  | .w4 b _ => b

/-- Width in bytes of a store request. -/
def StoreReq.width : StoreReq → Nat
  | .w1 _ _ => 1
  | .w2 _ _ => 2
  | .w4 _ _ => 4

/-- Execute one store request through the public atomic store entry
points. -/
def applyStore (s : AtomState) : StoreReq → AtomState
  | .w1 b x => __atomic_store_1 s b x 0
  | .w2 b x => __atomic_store_2 s b x 0
  | .w4 b x => __atomic_store_4 s b x 0

/-- Execute a list of store requests in order. -/
def applyStores (s : AtomState) : List StoreReq → AtomState
  | [] => s
  | r :: rs => applyStores (applyStore s r) rs

/-! ### Sequential counter runs for the fetch-and-add scenario.
Each of the three logical callers performs `__sync_fetch_and_add_4` on the
4-byte counter at address 0 with delta 1; a schedule lists, in order, which
caller performs each of the 30 calls. -/

/-- Run `n` sequential `__sync_fetch_and_add_4(counter, 1)` calls on the
counter at address 0, collecting the returned previous values in order. -/
def runCounter : Nat → AtomState → List Nat × AtomState
  | 0, s => ([], s)
  | n + 1, s =>
    let r := __sync_fetch_and_add_4 s 0 1
    let rest := runCounter n r.2
    (r.1 :: rest.1, rest.2)

/-- Run one `__sync_fetch_and_add_4(counter, 1)` call per schedule entry.
The entry of `Fin 3` names the logical caller that moves; every caller's
call is the same `fetchAndAdd(counter, 1)`, so the entry selects who moves
but not what is executed. -/
def runSched : List (Fin 3) → AtomState → List Nat × AtomState
  | [], s => ([], s)
  | _ :: t, s =>
    let r := __sync_fetch_and_add_4 s 0 1
    let rest := runSched t r.2
    (r.1 :: rest.1, rest.2)

end NXR

namespace NXR

/-! ### KernelGateway (`nextstep-sys`) and process effects -/

/-- Observable process effects: the data handed to the kernel for the
error stream (fd 2), and the exit status once `sys_exit` has run.  The
source runs freestanding; this record is what the claims observe. -/
structure Proc where
  stderrRequests : List String
  exited : Option Int

/-- Process state before any effect. -/
def emptyProc : Proc := ⟨[], none⟩

/-- Behaviour of the kernel's `vm_allocate` trap for one process: the
status code returned and the address placed in the out-parameter, both as
functions of the requested size. -/
structure VmKernel where
  ret : Nat → Int
  addr : Nat → Nat

/-- Safe wrapper for `vm_allocate` (`sys_vm_allocate`): returns
`Err(ret)` when the kernel status differs from `KERN_SUCCESS` (0), and
`Ok(addr)` otherwise. -/
def sys_vm_allocate (k : VmKernel) (size : Nat) : Except Int Nat :=
  if k.ret size ≠ 0 then Except.error (k.ret size) else Except.ok (k.addr size)

/-- Safe wrapper for the `write` syscall (`sys_write`): `kret` is the raw
kernel return value; a negative return surfaces as `Err(-1)`, otherwise
`Ok(ret as usize)`.  The data handed to fd 2 is recorded in the process
state. -/
def sys_write (kret : Int) (p : Proc) (fd : Nat) (data : String) :
    Except Int Nat × Proc :=
  (if kret < 0 then Except.error (-1) else Except.ok kret.toNat,
   if fd = 2 then { p with stderrRequests := p.stderrRequests ++ [data] } else p)

/-- Safe wrapper for the `_exit` syscall (`sys_exit`): records the exit
status; the source function never returns. -/
def sys_exit (code : Int) (p : Proc) : Proc :=
  { p with exited := some code }

/-! ### PageAllocator and FaultReporter (`nextstep-alloc`) -/

/-- Page size on NeXTSTEP m68k (`PAGE_SIZE`). -/
def PAGE_SIZE : Nat := 4096

/-- Rounding helper `round_up_to_page`:
`(size + PAGE_SIZE - 1) & !(PAGE_SIZE - 1)` on a 32-bit `usize`, so the
sum wraps modulo `2 ^ 32` and the mask is the 32-bit complement of 4095,
namely `4294963200`. -/
def round_up_to_page (size : Nat) : Nat :=
  ((size + (PAGE_SIZE - 1)) % 4294967296) &&& 4294963200

/-- `MachAllocator::alloc`: round the layout size up to a page multiple,
request that many bytes from `sys_vm_allocate`, return the base address on
success and the null sentinel (0) on failure.  The process state passes
through untouched: the allocator itself never writes diagnostics and never
exits. -/
def MachAllocator.alloc (k : VmKernel) (size : Nat) (p : Proc) :
    Nat × Proc :=
  match sys_vm_allocate k (round_up_to_page size) with
  | Except.ok ptr => (ptr, p)
  | Except.error _ => (0, p)

/-- `MachAllocator::alloc_zeroed`: delegates to `alloc`, because
`vm_allocate` already returns zeroed memory. -/
def MachAllocator.alloc_zeroed (k : VmKernel) (size : Nat) (p : Proc) :
    Nat × Proc :=
  MachAllocator.alloc k size p

/-- Fixed diagnostic written by the allocation-error hook. -/
def ALLOC_FAIL_MSG : String := "memory allocation failed\n"

/-- Allocation error handler `alloc_error` (the `#[alloc_error_handler]`
hook): writes the fixed message to stderr (result ignored), then exits
with status 1.  `kret` is the kernel's return value for the write call,
which the handler discards. -/
def alloc_error (kret : Int) (p : Proc) : Proc :=
  sys_exit 1 (sys_write kret p 2 ALLOC_FAIL_MSG).2

/-! ### Error kinds of the specification (refinement target for the
error-classification claim). -/

/-- Closed set of error kinds named by the spec for `KernelStatus`. -/
inductive KernKind where
  | resourceExhausted
  | invalidArgument
  | protectionFailure
  | unknown
deriving DecidableEq

/-- Modelled from the spec: the classification of kernel status codes
into the closed kind set ("resource-exhausted, invalid-argument,
protection-failure, unknown; unmapped codes fall into unknown").  No such
classification function exists anywhere in the source crates; this
definition renders the spec's words so they can be compared with what the
gateway actually surfaces. -/
def classifyKern (c : Int) : KernKind :=
  if c = 3 ∨ c = 6 then KernKind.resourceExhausted
  else if c = 1 ∨ c = 4 then KernKind.invalidArgument
  else if c = 2 then KernKind.protectionFailure
  else KernKind.unknown

/-! ### Helper lemmas: store/load round trips and frame conditions -/

theorem load1_store1 (m : Nat → Nat) (a v : Nat) :
    load_1 (store_1 m a v) a = v % 256 := by
  simp [load_1, store_1]

theorem store2_byte0 (m : Nat → Nat) (a v : Nat) :
    store_2 m a v a = v / 256 % 256 := by
  simp [store_2]

theorem store2_byte1 (m : Nat → Nat) (a v : Nat) :
    store_2 m a v (a + 1) = v % 256 := by
  have h0 : ¬ (a + 1 = a) := by omega
  simp [store_2, h0]

theorem load2_store2 (m : Nat → Nat) (a v : Nat) :
    load_2 (store_2 m a v) a = v % 65536 := by
  simp only [load_2, store2_byte0, store2_byte1]
  omega

theorem store4_byte0 (m : Nat → Nat) (a v : Nat) :
    store_4 m a v a = v / 16777216 % 256 := by
  simp [store_4]

theorem store4_byte1 (m : Nat → Nat) (a v : Nat) :
    store_4 m a v (a + 1) = v / 65536 % 256 := by
  have h0 : ¬ (a + 1 = a) := by omega
  simp [store_4, h0]

theorem store4_byte2 (m : Nat → Nat) (a v : Nat) :
    store_4 m a v (a + 2) = v / 256 % 256 := by
  have h0 : ¬ (a + 2 = a) := by omega
  have h1 : ¬ (a + 2 = a + 1) := by omega
  simp [store_4, h0, h1]

theorem store4_byte3 (m : Nat → Nat) (a v : Nat) :
    store_4 m a v (a + 3) = v % 256 := by
  have h0 : ¬ (a + 3 = a) := by omega
  have h1 : ¬ (a + 3 = a + 1) := by omega
  have h2 : ¬ (a + 3 = a + 2) := by omega
  simp [store_4, h0, h1, h2]

theorem load4_store4 (m : Nat → Nat) (a v : Nat) :
    load_4 (store_4 m a v) a = v % 4294967296 := by
  simp only [load_4, store4_byte0, store4_byte1, store4_byte2, store4_byte3]
  omega

theorem store1_frame (m : Nat → Nat) (b x i : Nat) (h : i ≠ b) :
    store_1 m b x i = m i := by
  simp [store_1, h]

theorem store2_frame (m : Nat → Nat) (b x i : Nat)
    (h : i < b ∨ b + 2 ≤ i) : store_2 m b x i = m i := by
  have h0 : i ≠ b := by omega
  have h1 : i ≠ b + 1 := by omega
  simp [store_2, h0, h1]

theorem store4_frame (m : Nat → Nat) (b x i : Nat)
    (h : i < b ∨ b + 4 ≤ i) : store_4 m b x i = m i := by
  have h0 : i ≠ b := by omega
  have h1 : i ≠ b + 1 := by omega
  have h2 : i ≠ b + 2 := by omega
  have h3 : i ≠ b + 3 := by omega
  simp [store_4, h0, h1, h2, h3]

/-- An atomic store request leaves every byte outside its own byte range
unchanged. -/
theorem applyStore_frame (s : AtomState) (r : StoreReq) (i : Nat)
    (h : i < r.base ∨ r.base + r.width ≤ i) :
    (applyStore s r).mem i = s.mem i := by
  cases r with
  | w1 b x =>
    simp only [StoreReq.base, StoreReq.width] at h
    exact store1_frame s.mem b x i (by omega)
  | w2 b x =>
    simp only [StoreReq.base, StoreReq.width] at h
    exact store2_frame s.mem b x i h
  | w4 b x =>
    simp only [StoreReq.base, StoreReq.width] at h
    exact store4_frame s.mem b x i h

/-- A list of atomic store requests leaves every byte outside all of their
byte ranges unchanged. -/
theorem applyStores_frame (rs : List StoreReq) (s : AtomState) (i : Nat)
    (h : ∀ r ∈ rs, i < r.base ∨ r.base + r.width ≤ i) :
    (applyStores s rs).mem i = s.mem i := by
  induction rs generalizing s with
  | nil => rfl
  | cons r rs ih =>
    have hr := h r (List.mem_cons_self r rs)
    have htail : ∀ q ∈ rs, i < q.base ∨ q.base + q.width ≤ i :=
      fun q hq => h q (List.mem_cons_of_mem r hq)
    calc (applyStores (applyStore s r) rs).mem i
        = (applyStore s r).mem i := ih (applyStore s r) htail
      _ = s.mem i := applyStore_frame s r i hr

/-! ### Helper lemmas: lock table -/

/-- Acquiring then releasing a stripe restores a clear table. -/
theorem locks_clear_roundtrip (idx : Nat) (L : Nat → Bool)
    (h : ∀ j, L j = false) (j : Nat) :
    release_spinlock idx (acquire_spinlock idx L) j = false := by
  by_cases hj : j = idx
  · simp [release_spinlock, hj]
  · simp [release_spinlock, acquire_spinlock, hj, h j]

/-- While a stripe is held, every other flag keeps its previous value. -/
theorem acquire_frame (idx : Nat) (L : Nat → Bool) (j : Nat)
    (h : j ≠ idx) : acquire_spinlock idx L j = L j := by
  simp [acquire_spinlock, h]

/-! ### Helper lemmas: 32-bit mask arithmetic -/

/-- Characterization of the 32-bit page mask: for arguments below
`2 ^ 32`, clearing the low 12 bits is truncation to a multiple of 4096. -/
theorem land_high_mask (x : Nat) (hx : x < 4294967296) :
    x &&& 4294963200 = x / 4096 * 4096 := by
  have hM : (4294963200 : Nat) = (2 ^ 20 - 1) <<< 12 := by
    norm_num [Nat.shiftLeft_eq]
  have hdiv : x / 4096 * 4096 = (x >>> 12) <<< 12 := by
    rw [Nat.shiftRight_eq_div_pow, Nat.shiftLeft_eq]
  rw [hM, hdiv]
  apply Nat.eq_of_testBit_eq
  intro i
  rw [Nat.testBit_and, Nat.testBit_shiftLeft, Nat.testBit_shiftLeft,
    Nat.testBit_shiftRight, Nat.testBit_two_pow_sub_one]
  by_cases h12 : 12 ≤ i
  · have hplus : 12 + (i - 12) = i := by omega
    by_cases h32 : i < 32
    · have h20 : i - 12 < 20 := by omega
      simp [ge_iff_le, h12, h20, hplus]
    · have hxi : x.testBit i = false := by
        apply Nat.testBit_lt_two_pow
        calc x < 4294967296 := hx
          _ = 2 ^ 32 := by norm_num
          _ ≤ 2 ^ i := Nat.pow_le_pow_right (by omega) (by omega)
      have h20 : ¬ (i - 12 < 20) := by omega
      simp [ge_iff_le, h12, h20, hplus, hxi]
  · simp [ge_iff_le, h12]

/-- Arithmetic characterization of the stripe hash: shift out the low four
address bits, keep the next six. -/
theorem addr_to_lock_idx_eq (addr : Nat) :
    addr_to_lock_idx addr = addr / 16 % 64 := by
  have h63 : SPINLOCK_MASK = 2 ^ 6 - 1 := rfl
  simp only [addr_to_lock_idx, h63, Nat.shiftRight_eq_div_pow,
    Nat.and_pow_two_sub_one_eq_mod]

/-! ## Claim theorems -/

/-- C1: for every width w in {1,2,4}, `compareAndSwap(a, expected,
desired)` returns the word value actually present before the attempt,
writes `desired` exactly when that value equals `expected`, and leaves the
memory untouched otherwise.  The bound on `desired` is the width's value
range, enforced in the source by the `u8`/`u16`/`u32` argument types. -/
theorem c1_compare_and_swap :
    (∀ (s : AtomState) (a expected desired : Nat), desired < 256 →
      (__sync_val_compare_and_swap_1 s a expected desired).1 = load_1 s.mem a ∧
      (load_1 s.mem a = expected →
        load_1 (__sync_val_compare_and_swap_1 s a expected desired).2.mem a = desired) ∧
      (load_1 s.mem a ≠ expected →
        (__sync_val_compare_and_swap_1 s a expected desired).2.mem = s.mem)) ∧
    (∀ (s : AtomState) (a expected desired : Nat), desired < 65536 →
      (__sync_val_compare_and_swap_2 s a expected desired).1 = load_2 s.mem a ∧
      (load_2 s.mem a = expected →
        load_2 (__sync_val_compare_and_swap_2 s a expected desired).2.mem a = desired) ∧
      (load_2 s.mem a ≠ expected →
        (__sync_val_compare_and_swap_2 s a expected desired).2.mem = s.mem)) ∧
    (∀ (s : AtomState) (a expected desired : Nat), desired < 4294967296 →
      (__sync_val_compare_and_swap_4 s a expected desired).1 = load_4 s.mem a ∧
      (load_4 s.mem a = expected →
        load_4 (__sync_val_compare_and_swap_4 s a expected desired).2.mem a = desired) ∧
      (load_4 s.mem a ≠ expected →
        (__sync_val_compare_and_swap_4 s a expected desired).2.mem = s.mem)) := by
  refine ⟨fun s a expected desired hd => ⟨rfl, fun h => ?_, fun h => ?_⟩,
    fun s a expected desired hd => ⟨rfl, fun h => ?_, fun h => ?_⟩,
    fun s a expected desired hd => ⟨rfl, fun h => ?_, fun h => ?_⟩⟩
  · show load_1 (if load_1 s.mem a = expected
      then store_1 s.mem a desired else s.mem) a = desired
    rw [if_pos h, load1_store1, Nat.mod_eq_of_lt hd]
  · show (if load_1 s.mem a = expected
      then store_1 s.mem a desired else s.mem) = s.mem
    rw [if_neg h]
  · show load_2 (if load_2 s.mem a = expected
      then store_2 s.mem a desired else s.mem) a = desired
    rw [if_pos h, load2_store2, Nat.mod_eq_of_lt hd]
  · show (if load_2 s.mem a = expected
      then store_2 s.mem a desired else s.mem) = s.mem
    rw [if_neg h]
  · show load_4 (if load_4 s.mem a = expected
      then store_4 s.mem a desired else s.mem) a = desired
    rw [if_pos h, load4_store4, Nat.mod_eq_of_lt hd]
  · show (if load_4 s.mem a = expected
      then store_4 s.mem a desired else s.mem) = s.mem
    rw [if_neg h]

/-- Witness for C1: a successful width-4 compare-and-swap on the zeroed
initial state installs the desired value. -/
theorem c1_witness :
    load_4 (__sync_val_compare_and_swap_4 initState 0 0 7).2.mem 0 = 7 :=
  (c1_compare_and_swap.2.2 initState 0 0 7 (by decide)).2.1 (by decide)

/-- C3: for every width w in {1,2,4}, `fetchAndAdd(a, delta)` returns the
previous word value and leaves the word equal to the sum reduced modulo
the width's value range; the operation is total and signals nothing. -/
theorem c3_fetch_and_add :
    (∀ (s : AtomState) (a delta : Nat),
      (__sync_fetch_and_add_1 s a delta).1 = load_1 s.mem a ∧
      load_1 (__sync_fetch_and_add_1 s a delta).2.mem a
        = (load_1 s.mem a + delta) % 256) ∧
    (∀ (s : AtomState) (a delta : Nat),
      (__sync_fetch_and_add_2 s a delta).1 = load_2 s.mem a ∧
      load_2 (__sync_fetch_and_add_2 s a delta).2.mem a
        = (load_2 s.mem a + delta) % 65536) ∧
    (∀ (s : AtomState) (a delta : Nat),
      (__sync_fetch_and_add_4 s a delta).1 = load_4 s.mem a ∧
      load_4 (__sync_fetch_and_add_4 s a delta).2.mem a
        = (load_4 s.mem a + delta) % 4294967296) := by
  refine ⟨fun s a delta => ⟨rfl, ?_⟩, fun s a delta => ⟨rfl, ?_⟩,
    fun s a delta => ⟨rfl, ?_⟩⟩
  · show load_1 (store_1 s.mem a ((load_1 s.mem a + delta) % 256)) a = _
    rw [load1_store1]
    omega
  · show load_2 (store_2 s.mem a ((load_2 s.mem a + delta) % 65536)) a = _
    rw [load2_store2]
    omega
  · show load_4 (store_4 s.mem a ((load_4 s.mem a + delta) % 4294967296)) a = _
    rw [load4_store4]
    omega

/-- C8: the lock index is the address shifted past the low four bits and
masked to the 64-entry table: it equals `addr / 16 % 64`, is always a
valid table index, depends only on the address bits above the discarded
low bits (which include the bits constant under natural alignment for
every width in {1,2,4}), is deterministic, and admits collisions between
distinct addresses. -/
theorem c8_lock_hash :
    (∀ addr : Nat, addr_to_lock_idx addr = addr / 16 % 64) ∧
    (∀ addr : Nat, addr_to_lock_idx addr < 64) ∧
    (∀ a b : Nat, a / 16 = b / 16 →
      addr_to_lock_idx a = addr_to_lock_idx b) ∧
    (∃ a b : Nat, a ≠ b ∧ addr_to_lock_idx a = addr_to_lock_idx b) := by
  refine ⟨addr_to_lock_idx_eq, fun addr => ?_, fun a b h => ?_, 0, 1024, ?_, ?_⟩
  · rw [addr_to_lock_idx_eq]
    exact Nat.mod_lt _ (by omega)
  · rw [addr_to_lock_idx_eq, addr_to_lock_idx_eq, h]
  · decide
  · decide

/-- Witness for C8: two addresses in the same 16-byte line select the same
stripe. -/
theorem c8_witness : addr_to_lock_idx 0 = addr_to_lock_idx 5 :=
  c8_lock_hash.2.2.1 0 5 (by decide)

/-- C10: every public atomic operation, started with every spinlock flag
clear, returns with every flag clear again; and the lock table held while
the critical section runs (the shared `acquire_spinlock` step every
operation performs on the stripe selected by `addr_to_lock_idx`) leaves
every flag other than that one stripe's untouched. -/
theorem c10_lock_discipline (s : AtomState) (h : ∀ j, s.locks j = false) :
    (∀ a ord j, (__atomic_load_1 s a ord).2.locks j = false) ∧
    (∀ a ord j, (__atomic_load_2 s a ord).2.locks j = false) ∧
    (∀ a ord j, (__atomic_load_4 s a ord).2.locks j = false) ∧
    (∀ a v ord j, (__atomic_store_1 s a v ord).locks j = false) ∧
    (∀ a v ord j, (__atomic_store_2 s a v ord).locks j = false) ∧
    (∀ a v ord j, (__atomic_store_4 s a v ord).locks j = false) ∧
    (∀ a v ord j, (__atomic_exchange_1 s a v ord).2.locks j = false) ∧
    (∀ a v ord j, (__atomic_exchange_2 s a v ord).2.locks j = false) ∧
    (∀ a v ord j, (__atomic_exchange_4 s a v ord).2.locks j = false) ∧
    (∀ a e d j, (__sync_val_compare_and_swap_1 s a e d).2.locks j = false) ∧
    (∀ a e d j, (__sync_val_compare_and_swap_2 s a e d).2.locks j = false) ∧
    (∀ a e d j, (__sync_val_compare_and_swap_4 s a e d).2.locks j = false) ∧
    (∀ a v j, (__sync_fetch_and_add_1 s a v).2.locks j = false) ∧
    (∀ a v j, (__sync_fetch_and_add_2 s a v).2.locks j = false) ∧
    (∀ a v j, (__sync_fetch_and_add_4 s a v).2.locks j = false) ∧
    (∀ a e d j, (__sync_bool_compare_and_swap_1 s a e d).2.locks j = false) ∧
    (∀ a e d j, (__sync_bool_compare_and_swap_2 s a e d).2.locks j = false) ∧
    (∀ a e d j, (__sync_bool_compare_and_swap_4 s a e d).2.locks j = false) ∧
    (∀ a j, j ≠ addr_to_lock_idx a →
      acquire_spinlock (addr_to_lock_idx a) s.locks j = s.locks j) := by
  refine ⟨fun a ord j => ?_, fun a ord j => ?_, fun a ord j => ?_,
    fun a v ord j => ?_, fun a v ord j => ?_, fun a v ord j => ?_,
    fun a v ord j => ?_, fun a v ord j => ?_, fun a v ord j => ?_,
    fun a e d j => ?_, fun a e d j => ?_, fun a e d j => ?_,
    fun a v j => ?_, fun a v j => ?_, fun a v j => ?_,
    fun a e d j => ?_, fun a e d j => ?_, fun a e d j => ?_,
    fun a j hj => acquire_frame _ _ _ hj⟩
  all_goals exact locks_clear_roundtrip (addr_to_lock_idx a) s.locks h j

/-- Witness for C10: a concrete load on the pristine state leaves stripe 7
clear. -/
theorem c10_witness : (__atomic_load_1 initState 0 0).2.locks 7 = false :=
  (c10_lock_discipline initState (fun _ => rfl)).1 0 0 7

/-- C2 fails as stated: store the 4-byte word 1 at address 0, then store a
2-byte word at the different address 2 — an address that hashes to the
same stripe as 0.  Both accesses are naturally aligned, yet the
intervening traffic on address 2 overwrites the low bytes of the word at
0, so the subsequent 4-byte load returns 0 instead of the stored 1. -/
theorem c2_counterexample :
    (2 : Nat) ≠ 0 ∧
    addr_to_lock_idx 2 = addr_to_lock_idx 0 ∧
    load_4 (__atomic_store_2 (__atomic_store_4 initState 0 1 0) 2 0 0).mem 0
      = 0 ∧
    (0 : Nat) ≠ 1 := by
  refine ⟨by decide, by decide, ?_, by decide⟩
  decide

/-- C2 amended: `store(a, v)` followed by `load(a)` at the same width
returns `v` (reduced to the width) across any intervening atomic stores —
of any width, to any other addresses, including addresses hashing to the
same stripe — provided each intervening store's byte range is disjoint
from the word at `a`. -/
theorem c2_amended :
    (∀ (s : AtomState) (a v : Nat) (rs : List StoreReq),
      (∀ r ∈ rs, r.base + r.width ≤ a ∨ a + 1 ≤ r.base) →
      load_1 (applyStores (__atomic_store_1 s a v 0) rs).mem a = v % 256) ∧
    (∀ (s : AtomState) (a v : Nat) (rs : List StoreReq),
      (∀ r ∈ rs, r.base + r.width ≤ a ∨ a + 2 ≤ r.base) →
      load_2 (applyStores (__atomic_store_2 s a v 0) rs).mem a = v % 65536) ∧
    (∀ (s : AtomState) (a v : Nat) (rs : List StoreReq),
      (∀ r ∈ rs, r.base + r.width ≤ a ∨ a + 4 ≤ r.base) →
      load_4 (applyStores (__atomic_store_4 s a v 0) rs).mem a
        = v % 4294967296) := by
  refine ⟨fun s a v rs hdisj => ?_, fun s a v rs hdisj => ?_,
    fun s a v rs hdisj => ?_⟩
  · have e0 := applyStores_frame rs (__atomic_store_1 s a v 0) a
      (fun r hr => by have := hdisj r hr; omega)
    have hm : (__atomic_store_1 s a v 0).mem = store_1 s.mem a v := rfl
    calc load_1 (applyStores (__atomic_store_1 s a v 0) rs).mem a
        = load_1 (store_1 s.mem a v) a := by
          simp only [load_1]
          rw [e0, hm]
      _ = v % 256 := load1_store1 s.mem a v
  · have e0 := applyStores_frame rs (__atomic_store_2 s a v 0) a
      (fun r hr => by have := hdisj r hr; omega)
    have e1 := applyStores_frame rs (__atomic_store_2 s a v 0) (a + 1)
      (fun r hr => by have := hdisj r hr; omega)
    have hm : (__atomic_store_2 s a v 0).mem = store_2 s.mem a v := rfl
    calc load_2 (applyStores (__atomic_store_2 s a v 0) rs).mem a
        = load_2 (store_2 s.mem a v) a := by
          simp only [load_2]
          rw [e0, e1, hm]
      _ = v % 65536 := load2_store2 s.mem a v
  · have e0 := applyStores_frame rs (__atomic_store_4 s a v 0) a
      (fun r hr => by have := hdisj r hr; omega)
    have e1 := applyStores_frame rs (__atomic_store_4 s a v 0) (a + 1)
      (fun r hr => by have := hdisj r hr; omega)
    have e2 := applyStores_frame rs (__atomic_store_4 s a v 0) (a + 2)
      (fun r hr => by have := hdisj r hr; omega)
    have e3 := applyStores_frame rs (__atomic_store_4 s a v 0) (a + 3)
      (fun r hr => by have := hdisj r hr; omega)
    have hm : (__atomic_store_4 s a v 0).mem = store_4 s.mem a v := rfl
    calc load_4 (applyStores (__atomic_store_4 s a v 0) rs).mem a
        = load_4 (store_4 s.mem a v) a := by
          simp only [load_4]
          rw [e0, e1, e2, e3, hm]
      _ = v % 4294967296 := load4_store4 s.mem a v

/-- Witness for the amended C2: a width-4 round trip at address 0 survives
an intervening width-4 store at the disjoint address 1024, which hashes to
stripe 0 just like address 0. -/
theorem c2_witness :
    load_4 (applyStores (__atomic_store_4 initState 0 5 0)
      [StoreReq.w4 1024 7]).mem 0 = 5 :=
  c2_amended.2.2 initState 0 5 [StoreReq.w4 1024 7] (by decide)

/-- A schedule run performs one identical counter call per entry, so it
agrees with the pure step-count run. -/
theorem runSched_eq_runCounter (l : List (Fin 3)) (s : AtomState) :
    runSched l s = runCounter l.length s := by
  induction l generalizing s with
  | nil => rfl
  | cons c t ih =>
    simp only [runSched, runCounter, List.length_cons, ih]

/-- A schedule's length is the total of the three callers' move counts. -/
theorem length_by_counts (l : List (Fin 3)) :
    l.length = l.count 0 + l.count 1 + l.count 2 := by
  induction l with
  | nil => simp
  | cons c t ih =>
    fin_cases c <;> simp [List.count_cons, ih] <;> omega

/-- C4: from a zeroed 4-byte counter, any sequential interleaving of
three logical callers performing ten `fetchAndAdd(counter, 1)` calls each
(30 calls in total) returns the previous values 0, 1, ..., 29 in
execution order — hence the multiset {0, ..., 29}, without duplicates or
gaps — and leaves `load(counter)` equal to 30. -/
theorem c4_counter_scenario (sched : List (Fin 3))
    (h0 : sched.count 0 = 10) (h1 : sched.count 1 = 10)
    (h2 : sched.count 2 = 10) :
    (runSched sched initState).1 = List.range 30 ∧
    load_4 (runSched sched initState).2.mem 0 = 30 := by
  have hlen : sched.length = 30 := by
    have := length_by_counts sched
    omega
  rw [runSched_eq_runCounter, hlen]
  exact ⟨by decide, by decide⟩

/-- Witness for C4: a concrete schedule in which caller 0 moves ten
times, then caller 1, then caller 2. -/
theorem c4_witness :
    (runSched (List.replicate 10 (0 : Fin 3) ++ List.replicate 10 1 ++
      List.replicate 10 2) initState).1 = List.range 30 ∧
    load_4 (runSched (List.replicate 10 (0 : Fin 3) ++
      List.replicate 10 1 ++ List.replicate 10 2) initState).2.mem 0 = 30 :=
  c4_counter_scenario _ (by decide) (by decide) (by decide)

/-- C5: for sizes above one page, the allocator's rounding (and thus the
size handed to `sys_vm_allocate`, which `alloc` calls at exactly
`round_up_to_page size`) is the ceiling to the next page multiple, written
`(s + 4095) / 4096 * 4096`; `allocate(16384)` requests exactly 16384
bytes and `allocate(1)` exactly 4096.  The upper bound on `s` mirrors the
guarantee `size ≤ isize::MAX` of `core::alloc::Layout`, whose `size()` is
what the source rounds. -/
theorem c5_page_rounding :
    (∀ s : Nat, 4096 < s → s + 4095 < 4294967296 →
      round_up_to_page s = (s + 4095) / 4096 * 4096) ∧
    round_up_to_page 16384 = 16384 ∧
    round_up_to_page 1 = 4096 ∧
    (∀ (k : VmKernel) (s : Nat) (p : Proc),
      MachAllocator.alloc k s p =
        match sys_vm_allocate k (round_up_to_page s) with
        | Except.ok ptr => (ptr, p)
        | Except.error _ => (0, p)) := by
  refine ⟨fun s _ hbound => ?_, by decide, by decide, fun k s p => rfl⟩
  show ((s + (PAGE_SIZE - 1)) % 4294967296) &&& 4294963200 = _
  have hp : PAGE_SIZE - 1 = 4095 := rfl
  rw [hp, Nat.mod_eq_of_lt hbound, land_high_mask _ hbound]

/-- Witness for C5: a size above one page whose rounding the theorem
computes. -/
theorem c5_witness : round_up_to_page 8192 = (8192 + 4095) / 4096 * 4096 :=
  c5_page_rounding.1 8192 (by decide) (by decide)

/-- C6: `alloc_zeroed` delegates to `alloc`: for every kernel behaviour,
every layout size and every process state it performs the same kernel
request and returns the same result. -/
theorem c6_alloc_zeroed_eq_alloc :
    ∀ (k : VmKernel) (s : Nat) (p : Proc),
      MachAllocator.alloc_zeroed k s p = MachAllocator.alloc k s p :=
  fun _ _ _ => rfl

/-- C7: when the kernel's `vm_allocate` fails with any non-success
status, `alloc` returns the null sentinel and leaves the process state
untouched (nothing written, no exit); termination happens only in the
allocation-error hook, which unconditionally hands the fixed one-line
diagnostic to the error stream and exits with status 1, whatever the
write call's own outcome. -/
theorem c7_failure_handling :
    (∀ (k : VmKernel) (size : Nat) (p : Proc),
      k.ret (round_up_to_page size) ≠ 0 →
      MachAllocator.alloc k size p = (0, p)) ∧
    (∀ (kret : Int) (p : Proc),
      alloc_error kret p =
        { stderrRequests := p.stderrRequests ++ [ALLOC_FAIL_MSG],
          exited := some 1 }) := by
  constructor
  · intro k size p hfail
    simp [MachAllocator.alloc, sys_vm_allocate, hfail]
  · intro kret p
    rfl

/-- Witness for C7: a kernel whose `vm_allocate` always returns status 3
(`KERN_NO_SPACE`) makes `allocate(1)` return null with the process state
intact. -/
theorem c7_witness :
    MachAllocator.alloc ⟨fun _ => 3, fun _ => 0⟩ 1 emptyProc
      = (0, emptyProc) :=
  c7_failure_handling.1 ⟨fun _ => 3, fun _ => 0⟩ 1 emptyProc (by decide)

/-- C9 fails as stated: the errors surfaced by failing KernelGateway
calls do not live in any four-element kind set.  Five kernels failing
`vm_allocate` with the five distinct status codes 1..5 surface five
pairwise-distinct errors (the raw codes), so no assignment of the four
spec kinds to error values can cover them. -/
theorem c9_counterexample :
    ¬ ∃ g : KernKind → Int,
       ∀ (k : VmKernel) (size : Nat), k.ret size ≠ 0 →
         ∃ κ : KernKind, sys_vm_allocate k size = Except.error (g κ) := by
  rintro ⟨g, hg⟩
  obtain ⟨κ1, e1⟩ := hg ⟨fun _ => 1, fun _ => 0⟩ 0 (by decide)
  obtain ⟨κ2, e2⟩ := hg ⟨fun _ => 2, fun _ => 0⟩ 0 (by decide)
  obtain ⟨κ3, e3⟩ := hg ⟨fun _ => 3, fun _ => 0⟩ 0 (by decide)
  obtain ⟨κ4, e4⟩ := hg ⟨fun _ => 4, fun _ => 0⟩ 0 (by decide)
  obtain ⟨κ5, e5⟩ := hg ⟨fun _ => 5, fun _ => 0⟩ 0 (by decide)
  have v1 : sys_vm_allocate ⟨fun _ => 1, fun _ => 0⟩ 0 = Except.error 1 := rfl
  have v2 : sys_vm_allocate ⟨fun _ => 2, fun _ => 0⟩ 0 = Except.error 2 := rfl
  have v3 : sys_vm_allocate ⟨fun _ => 3, fun _ => 0⟩ 0 = Except.error 3 := rfl
  have v4 : sys_vm_allocate ⟨fun _ => 4, fun _ => 0⟩ 0 = Except.error 4 := rfl
  have v5 : sys_vm_allocate ⟨fun _ => 5, fun _ => 0⟩ 0 = Except.error 5 := rfl
  rw [v1] at e1
  rw [v2] at e2
  rw [v3] at e3
  rw [v4] at e4
  rw [v5] at e5
  injection e1 with h1
  injection e2 with h2
  injection e3 with h3
  injection e4 with h4
  injection e5 with h5
  cases κ1 <;> cases κ2 <;> cases κ3 <;> cases κ4 <;> cases κ5 <;> omega

/-- C9 amended: every failing KernelGateway call surfaces a typed error
result, and the error is a function of the kernel status: `vm_allocate`
failures carry the raw status code unchanged, while `write` failures
carry the fixed sentinel -1; the gateway applies no classification into
the spec's four kinds. -/
theorem c9_amended :
    (∀ (k : VmKernel) (size : Nat), k.ret size ≠ 0 →
      sys_vm_allocate k size = Except.error (k.ret size)) ∧
    (∀ (kret : Int) (p : Proc) (fd : Nat) (data : String), kret < 0 →
      (sys_write kret p fd data).1 = Except.error (-1)) := by
  constructor
  · intro k size h
    simp [sys_vm_allocate, h]
  · intro kret p fd data h
    simp [sys_write, h]

/-- Witness for the amended C9: a kernel failing with status 5
(`KERN_FAILURE`) surfaces exactly the raw code 5. -/
theorem c9_witness :
    sys_vm_allocate ⟨fun _ => 5, fun _ => 0⟩ 7 = Except.error 5 :=
  c9_amended.1 ⟨fun _ => 5, fun _ => 0⟩ 7 (by decide)

end NXR
